import Mathlib

/-!
# Verification of the nexus terminal-multiplexer core

A shallow embedding, in Lean 4, of the core of the `nexus` repository (a
channel-based terminal multiplexer written in Rust): the wire codec
(`src/protocol/mod.rs`), the per-connection frame reader
(`src/server/connection.rs`), the PTY channel state observer
(`src/channel/pty_handler.rs`), the channel manager
(`src/channel/manager.rs`) and the session listener's message dispatch
(`src/server/listener.rs`).  Bytes are modelled as `List Nat` (each entry a
value `< 256`), machine integers as `Nat`/`Int` with explicit `% 2 ^ 32`
where the Rust code truncates, fallible Rust functions as `Except`-valued
Lean functions, and the daemon's mutable state as explicit state passing.
-/

namespace Nexus

/-! ## Wire codec (`src/protocol/mod.rs`) -/

/-- `MAX_MESSAGE_SIZE` from `src/protocol/mod.rs`: maximum message size to
prevent DoS attacks (10 MB). -/
def MAX_MESSAGE_SIZE : Nat := 10 * 1024 * 1024

/-- Errors of the codec, mirroring `ProtocolError` in `src/protocol/mod.rs`
(the variants the embedded functions can produce). -/
inductive ProtocolError where
  | InvalidFrame (msg : String)
  | MessageTooLarge (size : Nat) (max : Nat)
  deriving DecidableEq, Repr

/-- Big-endian byte decomposition of a `u32` value
(Rust `u32::to_be_bytes`).  The argument is assumed `< 2 ^ 32`. -/
def u32ToBeBytes (n : Nat) : List Nat :=
  [n / 2 ^ 24 % 256, n / 2 ^ 16 % 256, n / 2 ^ 8 % 256, n % 256]

/-- Big-endian reconstruction of a `u32` from four bytes
(Rust `u32::from_be_bytes`). -/
def u32FromBeBytes (b0 b1 b2 b3 : Nat) : Nat :=
  b0 * 2 ^ 24 + b1 * 2 ^ 16 + b2 * 2 ^ 8 + b3

/-- `frame_message` from `src/protocol/mod.rs`: prefix the payload with its
length as a big-endian `u32`.  Rust computes `payload.len() as u32`, which
truncates modulo `2 ^ 32`. -/
def frame_message (payload : List Nat) : List Nat :=
  u32ToBeBytes (payload.length % 2 ^ 32) ++ payload

/-- `unframe_message` from `src/protocol/mod.rs`.  Returns
`ok none` when the buffer does not yet hold a complete frame,
`ok (some (payload, remaining))` on success, and an error when the declared
length exceeds `MAX_MESSAGE_SIZE` (checked before the payload is
extracted). -/
def unframe_message (buffer : List Nat) :
    Except ProtocolError (Option (List Nat × List Nat)) :=
  match buffer with
  | b0 :: b1 :: b2 :: b3 :: rest =>
      let message_length := u32FromBeBytes b0 b1 b2 b3
      if message_length > MAX_MESSAGE_SIZE then
        .error (.MessageTooLarge message_length MAX_MESSAGE_SIZE)
      else if rest.length < message_length then
        .ok none
      else
        .ok (some (rest.take message_length, rest.drop message_length))
  | _ => .ok none

/-! ## Per-connection frame reader (`src/server/connection.rs`)

`read_message` reads from an async stream; we model the stream as the list
of bytes the peer will ever send, and the reader as a pure function from
that list.  `ok none` models the clean-close path (EOF while reading the
4-byte header, which Rust maps to `Ok(None)`); reading past the end of the
stream mid-body is the `read_exact` error path. -/

/-- The size cap of `read_message` in `src/server/connection.rs`
("Sanity check on message size (max 16MB)"). -/
def READ_MESSAGE_MAX : Nat := 16 * 1024 * 1024

/-- `read_message` from `src/server/connection.rs`: read a 4-byte
big-endian length, reject lengths above `READ_MESSAGE_MAX` before the body
buffer is allocated, then read exactly that many body bytes.  Returns the
body and the rest of the stream. -/
def read_message (stream : List Nat) :
    Except String (Option (List Nat × List Nat)) :=
  match stream with
  | b0 :: b1 :: b2 :: b3 :: rest =>
      let len := u32FromBeBytes b0 b1 b2 b3
      if len > READ_MESSAGE_MAX then
        .error ("Message too large: " ++ toString len ++ " bytes")
      else if rest.length < len then
        .error "unexpected end of file"
      else
        .ok (some (rest.take len, rest.drop len))
  | _ => .ok none

/-! ## Channel state (`src/channel/mod.rs`) and the PTY state observer
(`src/channel/pty_handler.rs`) -/

/-- `ChannelState` from `src/channel/mod.rs`.  Exit codes are `i32` in
Rust, modelled as `Int`. -/
inductive ChannelState where
  | Starting
  | Running
  | Exited (code : Option Int)
  | Killed
  deriving DecidableEq, Repr

/-- `ChannelState::is_alive` from `src/channel/mod.rs`. -/
def ChannelState.is_alive : ChannelState → Bool
  | .Starting => true
  | .Running => true
  | _ => false

/-- Rust `Result::unwrap_or`, used by `PtyChannel::state`. -/
def resultUnwrapOr {ε α : Type} (r : Except ε α) (default : α) : α :=
  match r with
  | .ok a => a
  | .error _ => default

/-- `PtyChannel::state` from `src/channel/pty_handler.rs`.  The argument
models the outcome of `self.state.read()` on the `RwLock`: `ok s` is a
successful read of the stored state, `error ()` is a poisoned lock.  Rust:
`self.state.read().map(|s| *s).unwrap_or(ChannelState::Exited(None))`. -/
def PtyChannel.state (lockRead : Except Unit ChannelState) : ChannelState :=
  resultUnwrapOr (lockRead.map (fun s => s)) (ChannelState.Exited none)

/-! ## Channel manager (`src/channel/manager.rs`)

The manager owns a map from channel name to `PtyChannel`; we model the map
as an association list in insertion order (Rust's `HashMap` iteration
order is arbitrary, so any fixed order is one refinement of it; the claims
proved below only use order-insensitive facts, or existentials, about the
parts that depend on it).  The `event_sender` side of the manager's mpsc
event channel is modelled as a trace: the list of events sent so far, in
order.  OS effects (PTY spawn success, signal delivery) are parameters of
the operations that perform them. -/

/-- The per-channel data the embedded manager operations consult: the
channel's name, its shared state cell, and whether the child-process
killer handle is still present (`PtyChannel::kill` takes it, making later
kills skip the signal).  The remaining `PtyChannel` fields (working dir,
command, pid, PTY handles) do not influence the operations modelled
here. -/
structure Channel where
  name : String
  state : ChannelState
  killer : Bool
  deriving DecidableEq, Repr

/-- `ChannelConfig` from `src/channel/mod.rs` (the fields the manager
consults; `env` and `size` only parameterize the OS spawn). -/
structure ChannelConfig where
  name : String
  command : Option String := none
  working_dir : Option String := none
  deriving DecidableEq, Repr

/-- `ChannelManagerEvent` from `src/channel/manager.rs`. -/
inductive ManagerEvent where
  | Output (channel_name : String) (data : List Nat)
  | StateChanged (channel_name : String) (state : ChannelState)
  deriving DecidableEq, Repr

/-- The errors the embedded manager operations produce, one constructor
per `anyhow!` message in `src/channel/manager.rs` and the
`ChannelNotAlive` bail in `PtyChannel::write`. -/
inductive ManagerError where
  | alreadyExists (name : String)
  | notFound (name : String)
  | noActiveChannel
  | channelNotAlive (name : String)
  | spawnFailed (msg : String)
  deriving DecidableEq, Repr

/-- The error text each `ManagerError` renders to, exactly the Rust format
strings of `src/channel/manager.rs` / `src/channel/pty_handler.rs`. -/
def ManagerError.message : ManagerError → String
  | .alreadyExists name => "Channel '" ++ name ++ "' already exists"
  | .notFound name => "Channel '" ++ name ++ "' not found"
  | .noActiveChannel => "No active channel"
  | .channelNotAlive name => "Channel '" ++ name ++ "' is not running"
  | .spawnFailed msg => msg

/-- `ChannelManager` state from `src/channel/manager.rs`, plus the trace
of events sent on `event_sender`. -/
structure ManagerState where
  channels : List (String × Channel)
  active_channel : Option String
  subscribed_channels : List String
  events : List ManagerEvent
  deriving DecidableEq, Repr

/-- `ChannelManager::new`: empty map, no active channel, no
subscriptions. -/
def ManagerState.init : ManagerState :=
  { channels := [], active_channel := none, subscribed_channels := [],
    events := [] }

/-- The key set of the channel map. -/
def ManagerState.keys (m : ManagerState) : List String :=
  m.channels.map Prod.fst

/-- `HashMap::get` on the modelled channel map. -/
def ManagerState.lookup (m : ManagerState) (name : String) : Option Channel :=
  (m.channels.find? (fun p => p.1 == name)).map Prod.snd

/-- `ChannelManager::create_channel`.  `spawn` is the outcome of the OS
side of `PtyChannel::spawn_with_notifier` (PTY allocation and child
spawn); on success the new channel starts in state `Running` with its
killer handle present, exactly as `spawn_with_notifier` constructs it.
Returns the updated state together with the Rust `Result`; on an error the
state is returned unchanged, mirroring the early returns. -/
def ManagerState.create_channel (m : ManagerState) (config : ChannelConfig)
    (spawn : Except String Unit) : ManagerState × Except ManagerError Unit :=
  if m.keys.contains config.name then
    (m, .error (.alreadyExists config.name))
  else
    match spawn with
    | .error e => (m, .error (.spawnFailed e))
    | .ok () =>
        let channel : Channel :=
          { name := config.name, state := .Running, killer := true }
        let is_first := m.channels.isEmpty
        ({ channels := m.channels ++ [(config.name, channel)],
           active_channel :=
             if is_first then some config.name else m.active_channel,
           subscribed_channels :=
             if is_first then m.subscribed_channels ++ [config.name]
             else m.subscribed_channels,
           events :=
             m.events ++ [.StateChanged config.name .Running] },
         .ok ())

/-- `PtyChannel::kill`: take the killer handle (if present) and signal the
child, then unconditionally set the state to `Killed`.  Signal delivery
itself is an OS effect with no further influence on the modelled state. -/
def Channel.kill (c : Channel) : Channel :=
  { c with state := .Killed, killer := false }

/-- `ChannelManager::kill_channel`: look the channel up (error
`"not found"` when absent), kill it, re-point `active_channel` at the
first other key when the killed channel was active, drop it from the
session-level subscriptions, and emit `StateChanged Killed`. -/
def ManagerState.kill_channel (m : ManagerState) (name : String) :
    ManagerState × Except ManagerError Unit :=
  match m.lookup name with
  | none => (m, .error (.notFound name))
  | some _ =>
      ({ channels :=
           m.channels.map (fun p => if p.1 == name then (p.1, p.2.kill) else p),
         active_channel :=
           if m.active_channel == some name then
             m.keys.find? (fun k => k != name)
           else m.active_channel,
         subscribed_channels :=
           m.subscribed_channels.filter (fun c => c != name),
         events := m.events ++ [.StateChanged name .Killed] },
       .ok ())

/-- `ChannelManager::switch_active`. -/
def ManagerState.switch_active (m : ManagerState) (name : String) :
    ManagerState × Except ManagerError Unit :=
  if m.keys.contains name then
    ({ m with active_channel := some name }, .ok ())
  else
    (m, .error (.notFound name))

/-- `ChannelManager::send_input_to`, including the `ChannelNotAlive` guard
of `PtyChannel::write`.  The written bytes go to the OS PTY, not to the
manager state, so the state is unchanged on every path. -/
def ManagerState.send_input_to (m : ManagerState) (name : String)
    (_data : List Nat) : ManagerState × Except ManagerError Unit :=
  match m.lookup name with
  | none => (m, .error (.notFound name))
  | some ch =>
      if ch.state.is_alive then (m, .ok ())
      else (m, .error (.channelNotAlive name))

/-- `ChannelManager::send_input`: route to the active channel, error
`"No active channel"` when none is set. -/
def ManagerState.send_input (m : ManagerState) (data : List Nat) :
    ManagerState × Except ManagerError Unit :=
  match m.active_channel with
  | none => (m, .error .noActiveChannel)
  | some name => m.send_input_to name data

/-- `ChannelManager::subscribe` (session-level). -/
def ManagerState.subscribe (m : ManagerState) (names : List String) :
    ManagerState :=
  let subs :=
    names.foldl
      (fun acc n =>
        if m.keys.contains n && !(acc.contains n) then acc ++ [n] else acc)
      m.subscribed_channels
  { m with subscribed_channels := subs }

/-- `ChannelManager::unsubscribe` (session-level). -/
def ManagerState.unsubscribe (m : ManagerState) (names : List String) :
    ManagerState :=
  { m with subscribed_channels :=
      m.subscribed_channels.filter (fun c => !(names.contains c)) }

/-- `ChannelManager::is_subscribed` (session-level). -/
def ManagerState.is_subscribed (m : ManagerState) (name : String) : Bool :=
  m.subscribed_channels.contains name

/-- `ChannelManager::list_channels`: all channel names, dead or alive. -/
def ManagerState.list_channels (m : ManagerState) : List String :=
  m.keys

/-- `ChannelInfo` from `src/protocol/message.rs`. -/
structure ChannelInfo where
  name : String
  running : Bool
  is_active : Bool
  is_subscribed : Bool
  deriving DecidableEq, Repr

/-- `ChannelManager::list_channels_info`. -/
def ManagerState.list_channels_info (m : ManagerState) : List ChannelInfo :=
  m.channels.map (fun p =>
    { name := p.2.name,
      running := p.2.state.is_alive,
      is_active := m.active_channel == some p.2.name,
      is_subscribed := m.is_subscribed p.2.name })

/-- The background activities `spawn_with_notifier` starts for a channel
(`src/channel/pty_handler.rs`), as manager-state transitions.

`waiter_exit name code` is the waiter thread's completion: `child.wait()`
returned, the waiter writes `Exited(code)` into the channel's shared state
cell (through its own `Arc`, regardless of the current state — in
particular it overwrites `Killed`) and sends `StateChanged (Exited code)`
on the event channel.  A wait error is the same transition with
`code = none`. -/
def ManagerState.waiter_exit (m : ManagerState) (name : String)
    (code : Option Int) : ManagerState :=
  { m with
    channels :=
      m.channels.map (fun p =>
        if p.1 == name then (p.1, { p.2 with state := .Exited code }) else p),
    events := m.events ++ [.StateChanged name (.Exited code)] }

/-- The reader thread delivering one non-empty chunk read from the PTY
master: it sends `Output` on the event channel.  The reader never consults
the channel state (it loops until EOF or a read error), so this transition
is not gated on the channel being alive. -/
def ManagerState.reader_chunk (m : ManagerState) (name : String)
    (data : List Nat) : ManagerState :=
  { m with events := m.events ++ [.Output name data] }

/-! ### Executions of the manager

An execution is a sequence of manager operations (client-driven calls
interleaved with the channels' background activities) applied from the
initial state. -/

/-- One step of a manager execution. -/
inductive ManagerOp where
  | createOp (config : ChannelConfig) (spawn : Except String Unit)
  | killOp (name : String)
  | switchOp (name : String)
  | inputOp (data : List Nat)
  | inputToOp (name : String) (data : List Nat)
  | subscribeOp (names : List String)
  | unsubscribeOp (names : List String)
  | waiterExitOp (name : String) (code : Option Int)
  | readerChunkOp (name : String) (data : List Nat)
  deriving Repr

/-- Apply one operation to the manager state (errors leave the state as
the operation left it, which for every erroring path is unchanged). -/
def ManagerState.apply (m : ManagerState) : ManagerOp → ManagerState
  | .createOp config spawn => (m.create_channel config spawn).1
  | .killOp name => (m.kill_channel name).1
  | .switchOp name => (m.switch_active name).1
  | .inputOp data => (m.send_input data).1
  | .inputToOp name data => (m.send_input_to name data).1
  | .subscribeOp names => m.subscribe names
  | .unsubscribeOp names => m.unsubscribe names
  | .waiterExitOp name code => m.waiter_exit name code
  | .readerChunkOp name data => m.reader_chunk name data

/-- Run a sequence of manager operations from the initial state. -/
def ManagerState.run (ops : List ManagerOp) : ManagerState :=
  ops.foldl ManagerState.apply ManagerState.init

/-! ## Protocol messages (`src/protocol/message.rs`) -/

/-- `PROTOCOL_VERSION` from `src/protocol/mod.rs`. -/
def PROTOCOL_VERSION : Nat := 1

/-- `ClientMessage` from `src/protocol/message.rs`. -/
inductive ClientMessage where
  | Hello (protocol_version : Nat)
  | Input (data : List Nat)
  | InputTo (channel : String) (data : List Nat)
  | CreateChannel (name : String) (command : Option String)
      (working_dir : Option String)
  | KillChannel (name : String)
  | SwitchChannel (name : String)
  | Subscribe (channels : List String)
  | Unsubscribe (channels : List String)
  | ListChannels
  | GetStatus (channel : Option String)
  | Resize (cols : Nat) (rows : Nat)
  | Detach
  | Shutdown
  deriving DecidableEq, Repr

/-- `ChannelEvent` from `src/protocol/message.rs`. -/
inductive ChannelEvent where
  | Created (name : String)
  | Exited (name : String) (exit_code : Option Int)
  | Killed (name : String)
  | ActiveChanged (name : String)
  | SubscriptionChanged (subscribed : List String)
  deriving DecidableEq, Repr

/-- `ChannelStatus` from `src/protocol/message.rs` (fields as in the
source; only the empty list of these ever appears in the embedded
dispatch, matching the `GetStatus` stub). -/
structure ChannelStatus where
  name : String
  pid : Option Nat
  running : Bool
  exit_code : Option Int
  deriving DecidableEq, Repr

/-- `ServerMessage` from `src/protocol/message.rs`.  `Uuid`s are modelled
as `Nat`. -/
inductive ServerMessage where
  | Welcome (session_id : Nat) (protocol_version : Nat)
  | Output (channel : String) (data : List Nat) (timestamp : Int)
  | Event (event : ChannelEvent)
  | ChannelList (channels : List ChannelInfo)
  | Status (channels : List ChannelStatus)
  | Error (message : String)
  | Ack (for_command : String)
  deriving DecidableEq, Repr

/-! ## Client connections and the session listener
(`src/server/connection.rs`, `src/server/listener.rs`) -/

/-- Modelled from the spec: the repository's `ClientConnection` (in
`src/server/connection.rs`) carries only the client id and the outbound
mailbox; the per-client subscription set and the methods `subscribe`,
`unsubscribe`, `is_subscribed` and `get_subscriptions` that
`src/server/listener.rs` calls on it are not present under `src/`.
Following spec §3/§4.4: each client connection owns a subscription set of
channel names. -/
structure ClientConn where
  id : Nat
  subscriptions : List String
  deriving DecidableEq, Repr

/-- Modelled from the spec: `ClientConnection::is_subscribed` —
membership in the client's subscription set. -/
def ClientConn.is_subscribed (c : ClientConn) (name : String) : Bool :=
  c.subscriptions.contains name

/-- Modelled from the spec: `ClientConnection::subscribe` — union the
given names into the client's subscription set (spec §4.5 `Subscribe`:
"union into client's subscription set"); returns the updated client
together with the newly added names, which the listener uses to replay
buffered output ("replay buffered output for newly-added channels"). -/
def ClientConn.subscribe (c : ClientConn) (names : List String) :
    ClientConn × List String :=
  let subs :=
    names.foldl (fun acc n => if acc.contains n then acc else acc ++ [n])
      c.subscriptions
  ({ c with subscriptions := subs }, subs.drop c.subscriptions.length)

/-- Modelled from the spec: `ClientConnection::unsubscribe` — remove the
given names from the client's subscription set (spec §4.5 `Unsubscribe`:
"Remove from client set"). -/
def ClientConn.unsubscribe (c : ClientConn) (names : List String) :
    ClientConn :=
  { c with subscriptions :=
      c.subscriptions.filter (fun s => !(names.contains s)) }

/-- Modelled from the spec: `ClientConnection::get_subscriptions` — the
current subscription set, as sent back in
`Event(SubscriptionChanged{new_set})`. -/
def ClientConn.get_subscriptions (c : ClientConn) : List String :=
  c.subscriptions

/-- `MAX_BUFFERED_OUTPUTS` from `src/server/listener.rs`. -/
def MAX_BUFFERED_OUTPUTS : Nat := 200

/-- `BufferedOutput` from `src/server/listener.rs`. -/
structure BufferedOutput where
  data : List Nat
  timestamp : Int
  deriving DecidableEq, Repr

/-- `ServerState` from `src/server/listener.rs` (the session metadata is
reduced to the parts the dispatch consults: nothing). -/
structure ServerState where
  clients : List (Nat × ClientConn)
  channel_manager : ManagerState
  output_buffers : List (String × List BufferedOutput)
  deriving DecidableEq, Repr

/-- Look a client up by id. -/
def ServerState.lookup_client (st : ServerState) (id : Nat) :
    Option ClientConn :=
  (st.clients.find? (fun p => p.1 == id)).map Prod.snd

/-- Replace a client's entry. -/
def ServerState.set_client (st : ServerState) (id : Nat) (c : ClientConn) :
    ServerState :=
  { st with clients :=
      st.clients.map (fun p => if p.1 == id then (p.1, c) else p) }

/-- `output_buffers.entry(name).or_insert_with(VecDeque::new)`: ensure a
(possibly empty) buffer exists for the channel. -/
def ServerState.ensure_buffer (st : ServerState) (name : String) :
    ServerState :=
  if (st.output_buffers.map Prod.fst).contains name then st
  else { st with output_buffers := st.output_buffers ++ [(name, [])] }

/-- The buffered chunks for a channel (empty when no buffer exists). -/
def ServerState.buffer_of (st : ServerState) (name : String) :
    List BufferedOutput :=
  ((st.output_buffers.find? (fun p => p.1 == name)).map Prod.snd).getD []

/-- `send_buffered_output` from `src/server/listener.rs`, as the list of
`Output` messages it sends to the client, in order: for each listed
channel that has a buffer, all its buffered entries. -/
def ServerState.buffered_output_messages (st : ServerState)
    (channels : List String) : List ServerMessage :=
  channels.flatMap (fun ch =>
    (st.buffer_of ch).map (fun entry =>
      ServerMessage.Output ch entry.data entry.timestamp))

/-- The channel-name expansion of `Subscribe` in `process_message`
(`src/server/listener.rs`): when the request contains `"*"`, the target
set is all known channel names (`ChannelManager::list_channels`);
otherwise it is the requested names filtered to the known ones. -/
def ServerState.expand_subscribe (st : ServerState)
    (channels : List String) : List String :=
  let known := st.channel_manager.list_channels
  if channels.contains "*" then known
  else channels.filter (fun c => known.contains c)

/-- Everything one `process_message` call does, besides the state change:
the optional direct response, the messages broadcast to all clients
(`broadcast_to_clients`), the messages sent directly to this client by
`send_buffered_output`, and whether the call triggers daemon shutdown. -/
structure ProcessResult where
  state : ServerState
  response : Option ServerMessage
  broadcasts : List ServerMessage
  replayed : List ServerMessage
  triggers_shutdown : Bool
  deriving DecidableEq, Repr

/-- The version-mismatch error text of the `Hello` arm of
`process_message` (Rust:
`"Protocol version mismatch: expected {}, got {}"`). -/
def version_mismatch_message (v : Nat) : String :=
  "Protocol version mismatch: expected " ++ toString PROTOCOL_VERSION
    ++ ", got " ++ toString v

/-- A `ProcessResult` that only answers with `response` and changes
nothing else. -/
def respondOnly (st : ServerState) (response : Option ServerMessage) :
    ProcessResult :=
  { state := st, response := response, broadcasts := [], replayed := [],
    triggers_shutdown := false }

/-- `process_message` from `src/server/listener.rs`: the per-client
dispatch on one parsed `ClientMessage`.  `spawn` is the OS outcome of the
PTY spawn for the `CreateChannel` arm (ignored by every other arm).

The `ListChannels` arm of the source unwraps the client lookup; a client
is always registered before its message loop runs, so the `getD` default
below is unreachable in the modelled executions. -/
def process_message (msg : ClientMessage) (client_id : Nat)
    (st : ServerState) (spawn : Except String Unit) : ProcessResult :=
  match msg with
  | .Hello protocol_version =>
      if protocol_version != PROTOCOL_VERSION then
        respondOnly st (some (.Error
          (version_mismatch_message protocol_version)))
      else
        respondOnly st (some (.Ack "Hello"))
  | .CreateChannel name command working_dir =>
      let config : ChannelConfig :=
        { name := name, command := command, working_dir := working_dir }
      match st.channel_manager.create_channel config spawn with
      | (manager, .ok ()) =>
          let st := { st with channel_manager := manager }
          let st := st.ensure_buffer name
          { state := st,
            response := some (.Ack "CreateChannel"),
            broadcasts := [.Event (.Created name)],
            replayed := [],
            triggers_shutdown := false }
      | (manager, .error e) =>
          respondOnly { st with channel_manager := manager }
            (some (.Error ("Failed to create channel: " ++ e.message)))
  | .KillChannel name =>
      match st.channel_manager.kill_channel name with
      | (manager, .ok ()) =>
          respondOnly { st with channel_manager := manager }
            (some (.Ack "KillChannel"))
      | (manager, .error e) =>
          respondOnly { st with channel_manager := manager }
            (some (.Error ("Failed to kill channel: " ++ e.message)))
  | .ListChannels =>
      let client := (st.lookup_client client_id).getD
        { id := client_id, subscriptions := [] }
      let infos := st.channel_manager.list_channels_info.map (fun info =>
        { info with is_subscribed := client.is_subscribed info.name })
      respondOnly st (some (.ChannelList infos))
  | .GetStatus _ =>
      respondOnly st (some (.Status []))
  | .Detach =>
      respondOnly st (some (.Ack "Detach"))
  | .Shutdown =>
      -- The source acknowledges and leaves a `TODO: Trigger server
      -- shutdown`; nothing is signalled to the accept loop.
      { state := st, response := some (.Ack "Shutdown"), broadcasts := [],
        replayed := [], triggers_shutdown := false }
  | .Subscribe channels =>
      let target_channels := st.expand_subscribe channels
      match st.lookup_client client_id with
      | some client =>
          let (client, newly_added) := client.subscribe target_channels
          let subs := client.get_subscriptions
          let st := st.set_client client_id client
          { state := st,
            response := some (.Event (.SubscriptionChanged subs)),
            broadcasts := [],
            replayed := st.buffered_output_messages newly_added,
            triggers_shutdown := false }
      | none =>
          respondOnly st (some (.Error "Client not found"))
  | .Unsubscribe channels =>
      match st.lookup_client client_id with
      | some client =>
          let client := client.unsubscribe channels
          let subs := client.get_subscriptions
          respondOnly (st.set_client client_id client)
            (some (.Event (.SubscriptionChanged subs)))
      | none =>
          respondOnly st (some (.Error "Client not found"))
  | .Input _ =>
      respondOnly st (some (.Error "Channel operations not yet implemented"))
  | .InputTo _ _ =>
      respondOnly st (some (.Error "Channel operations not yet implemented"))
  | .SwitchChannel _ =>
      respondOnly st (some (.Error "Channel operations not yet implemented"))
  | .Resize _ _ =>
      respondOnly st (some (.Error "Channel operations not yet implemented"))

/-- The read-and-process loop of `handle_client`
(`src/server/listener.rs`), at the level of already-parsed messages: each
successfully parsed message is dispatched through `process_message` and
its response (if any) sent back; the loop only ends on transport events
(EOF or an I/O error), never because of a message's content.  The input
pairs each message with the OS spawn outcome consumed by its dispatch;
the result collects the direct responses sent to this client, in order. -/
def message_loop (st : ServerState) (client_id : Nat) :
    List (ClientMessage × Except String Unit) →
    ServerState × List ServerMessage
  | [] => (st, [])
  | (msg, spawn) :: rest =>
      let r := process_message msg client_id st spawn
      let (st', responses) := message_loop r.state client_id rest
      (st', r.response.toList ++ responses)

/-! ### Concrete scenario states used by the theorems below -/

/-- The execution that creates channels `"a"` then `"b"`, both OS spawns
succeeding. -/
def opsCreateAB : List ManagerOp :=
  [.createOp { name := "a" } (.ok ()), .createOp { name := "b" } (.ok ())]

/-- The manager holding live channels `"a"` (active, as first created)
and `"b"`. -/
def managerAB : ManagerState := ManagerState.run opsCreateAB

/-- Create `"a"` and `"b"`, then kill `"a"` (the active channel). -/
def opsCreateABKillA : List ManagerOp := opsCreateAB ++ [.killOp "a"]

/-- A session with one registered client (id 0, no subscriptions) and an
empty channel manager. -/
def serverEmpty : ServerState :=
  { clients := [(0, { id := 0, subscriptions := [] })],
    channel_manager := ManagerState.init, output_buffers := [] }

/-- A session whose manager holds the live channel `"a"` (active), with
one registered client subscribed to it, as after
`CreateChannel{"a"}`. -/
def serverWithA : ServerState :=
  { clients := [(0, { id := 0, subscriptions := ["a"] })],
    channel_manager := ManagerState.run [.createOp { name := "a" } (.ok ())],
    output_buffers := [("a", [])] }

/-- A session whose channel `"a"` has been created and then killed: the
dead channel remains in the manager's map, its replay buffer exists, and
the registered client is not subscribed to anything. -/
def serverDeadA : ServerState :=
  { clients := [(0, { id := 0, subscriptions := [] })],
    channel_manager :=
      ManagerState.run [.createOp { name := "a" } (.ok ()), .killOp "a"],
    output_buffers := [("a", [])] }

/-- Following the spec's words (for comparison with the code's `"*"`
expansion): "the set of live channel names (channels in state Starting or
Running)". -/
def spec_live_channels (m : ManagerState) : List String :=
  (m.channels.filter (fun p => p.2.state.is_alive)).map Prod.fst

/-! ## Generic helper notions and lemmas -/

/-- Rust's `str::contains` for the error-text claims: `needle` occurs
contiguously inside `hay`. -/
def strContainsSub (needle hay : String) : Prop :=
  ∃ pre suf, hay.data = pre ++ needle.data ++ suf

/-- Whether an event is a terminal event (`Exited` or `Killed`) for
channel `c`. -/
def ManagerEvent.isTerminalFor (c : String) : ManagerEvent → Bool
  | .StateChanged n s =>
      n == c && (match s with
        | .Exited _ => true
        | .Killed => true
        | _ => false)
  | _ => false

/-- Number of terminal events for channel `c` in an event trace. -/
def terminalCount (c : String) (events : List ManagerEvent) : Nat :=
  events.countP (ManagerEvent.isTerminalFor c)

/-- Whether a manager operation can emit a terminal event for channel
`c`: a kill of `c` or `c`'s waiter finishing. -/
def ManagerOp.isTerminalSourceFor (c : String) : ManagerOp → Bool
  | .killOp n => n == c
  | .waiterExitOp n _ => n == c
  | _ => false

/-- The manager invariant claimed for `active_channel`: whenever it holds
a name, that name is a key of the channel map. -/
def ActiveWF (m : ManagerState) : Prop :=
  ∀ n, m.active_channel = some n → n ∈ m.keys


/-- Round trip of the big-endian `u32` byte decomposition. -/
theorem u32_round_trip (n : Nat) (h : n < 2 ^ 32) :
    u32FromBeBytes (n / 2 ^ 24 % 256) (n / 2 ^ 16 % 256) (n / 2 ^ 8 % 256)
      (n % 256) = n := by
  simp only [u32FromBeBytes]
  omega

/-- Unframing a single framed payload of legal size recovers the payload
with empty remainder. -/
theorem unframe_frame (p : List Nat) (h : p.length ≤ MAX_MESSAGE_SIZE) :
    unframe_message (frame_message p) = .ok (some (p, [])) := by
  have hlt : p.length < 2 ^ 32 := by
    have : MAX_MESSAGE_SIZE < 2 ^ 32 := by decide
    omega
  have hmod : p.length % 2 ^ 32 = p.length := Nat.mod_eq_of_lt hlt
  simp only [frame_message, u32ToBeBytes, hmod, List.cons_append,
    List.nil_append, unframe_message]
  rw [u32_round_trip p.length hlt]
  simp [h, Nat.not_lt.mpr (le_refl p.length), MAX_MESSAGE_SIZE] at h ⊢
  omega

/-- Unframing the concatenation of two frames yields the first payload
with the second frame as remainder, when the first payload has legal
size. -/
theorem unframe_frame_append (p1 p2 : List Nat)
    (h1 : p1.length ≤ MAX_MESSAGE_SIZE) :
    unframe_message (frame_message p1 ++ frame_message p2) =
      .ok (some (p1, frame_message p2)) := by
  have hlt : p1.length < 2 ^ 32 := by
    have : MAX_MESSAGE_SIZE < 2 ^ 32 := by decide
    omega
  have hmod : p1.length % 2 ^ 32 = p1.length := Nat.mod_eq_of_lt hlt
  simp only [frame_message, u32ToBeBytes, hmod, List.cons_append,
    List.nil_append, List.append_assoc, unframe_message]
  rw [u32_round_trip p1.length hlt]
  have hlen : p1.length ≤
      (p1 ++ (u32ToBeBytes (p2.length % 2 ^ 32) ++ p2)).length := by
    simp
  simp only [u32ToBeBytes] at hlen
  simp [h1, Nat.not_lt.mpr hlen, List.take_append, List.drop_append,
    Nat.not_lt.mpr (le_refl p1.length), List.take_left, List.drop_left]

/-- `unframe_message` rejects an oversize declared length from the header
alone: the result is the same `MessageTooLarge` error for every body. -/
theorem unframe_oversize (b0 b1 b2 b3 : Nat) (rest : List Nat)
    (h : u32FromBeBytes b0 b1 b2 b3 > MAX_MESSAGE_SIZE) :
    unframe_message (b0 :: b1 :: b2 :: b3 :: rest) =
      .error (.MessageTooLarge (u32FromBeBytes b0 b1 b2 b3)
        MAX_MESSAGE_SIZE) := by
  simp [unframe_message, h]

/-- `read_message` rejects a declared length above its 16 MiB cap from
the header alone: the result is the same error for every body. -/
theorem read_message_oversize (b0 b1 b2 b3 : Nat) (rest : List Nat)
    (h : u32FromBeBytes b0 b1 b2 b3 > READ_MESSAGE_MAX) :
    read_message (b0 :: b1 :: b2 :: b3 :: rest) =
      .error ("Message too large: " ++ toString (u32FromBeBytes b0 b1 b2 b3)
        ++ " bytes") := by
  simp [read_message, h]

/-- `read_message` accepts any frame whose declared length is within its
16 MiB cap and whose body is fully present. -/
theorem read_message_exact (b0 b1 b2 b3 : Nat) (rest : List Nat)
    (hcap : u32FromBeBytes b0 b1 b2 b3 ≤ READ_MESSAGE_MAX)
    (hlen : rest.length = u32FromBeBytes b0 b1 b2 b3) :
    read_message (b0 :: b1 :: b2 :: b3 :: rest) = .ok (some (rest, [])) := by
  simp [read_message, Nat.not_lt.mpr hcap, ← hlen]
  omega

/-! ## Claim C8 -/

/-- C8, counterexample.  The claim says a declared length above the
10 MiB cap is rejected with a framing error in both the codec's
`unframe_message` and the connection reader's `read_message`.  For the
declared length `10 MiB + 1` (header bytes `[0, 160, 0, 1]`) with a full
body present, `unframe_message` does reject, but `read_message` — whose
cap in the source is 16 MiB, not 10 MiB — accepts the frame and reads the
whole body, so the claim is false for the per-connection reader. -/
theorem C8_counterexample :
    unframe_message (0 :: 160 :: 0 :: 1 ::
        List.replicate (MAX_MESSAGE_SIZE + 1) 0) =
      .error (.MessageTooLarge (MAX_MESSAGE_SIZE + 1) MAX_MESSAGE_SIZE) ∧
    read_message (0 :: 160 :: 0 :: 1 ::
        List.replicate (MAX_MESSAGE_SIZE + 1) 0) =
      .ok (some (List.replicate (MAX_MESSAGE_SIZE + 1) 0, [])) := by
  have hval : u32FromBeBytes 0 160 0 1 = MAX_MESSAGE_SIZE + 1 := by decide
  constructor
  · rw [unframe_oversize 0 160 0 1 _ (by decide), hval]
  · apply read_message_exact
    · decide
    · rw [List.length_replicate]
      decide

/-- C8, amended.  A frame whose declared length exceeds the respective
size cap is rejected with a framing error computed from the header alone
— the result does not depend on the body, so no body buffer is needed —
but the two paths use different caps: `unframe_message` rejects above the
10 MiB `MAX_MESSAGE_SIZE`, while `read_message` in the connection layer
rejects above its own 16 MiB cap (declared lengths between the two caps
are read in full by `read_message`, as the counterexample shows). -/
theorem C8_oversize_rejected_per_cap (b0 b1 b2 b3 : Nat)
    (rest rest' : List Nat) :
    (u32FromBeBytes b0 b1 b2 b3 > MAX_MESSAGE_SIZE →
      unframe_message (b0 :: b1 :: b2 :: b3 :: rest) =
        .error (.MessageTooLarge (u32FromBeBytes b0 b1 b2 b3)
          MAX_MESSAGE_SIZE) ∧
      unframe_message (b0 :: b1 :: b2 :: b3 :: rest) =
        unframe_message (b0 :: b1 :: b2 :: b3 :: rest')) ∧
    (u32FromBeBytes b0 b1 b2 b3 > READ_MESSAGE_MAX →
      read_message (b0 :: b1 :: b2 :: b3 :: rest) =
        .error ("Message too large: "
          ++ toString (u32FromBeBytes b0 b1 b2 b3) ++ " bytes") ∧
      read_message (b0 :: b1 :: b2 :: b3 :: rest) =
        read_message (b0 :: b1 :: b2 :: b3 :: rest')) := by
  constructor
  · intro h
    rw [unframe_oversize b0 b1 b2 b3 rest h,
      unframe_oversize b0 b1 b2 b3 rest' h]
    exact ⟨rfl, rfl⟩
  · intro h
    rw [read_message_oversize b0 b1 b2 b3 rest h,
      read_message_oversize b0 b1 b2 b3 rest' h]
    exact ⟨rfl, rfl⟩

/-- C8, witness: the oversize rejections at the concrete header
`[255, 255, 255, 255]` (declared length `2 ^ 32 - 1`), independence of the
body shown against a different body. -/
theorem C8_oversize_rejected_per_cap_witness :
    unframe_message (255 :: 255 :: 255 :: 255 :: [7]) =
      .error (.MessageTooLarge (u32FromBeBytes 255 255 255 255)
        MAX_MESSAGE_SIZE) ∧
    read_message (255 :: 255 :: 255 :: 255 :: [7]) =
      .error ("Message too large: "
        ++ toString (u32FromBeBytes 255 255 255 255) ++ " bytes") := by
  have h := C8_oversize_rejected_per_cap 255 255 255 255 [7] [9]
  exact ⟨(h.1 (by decide)).1, (h.2 (by decide)).1⟩

/-! ## Claim C9 -/

/-- C9, counterexample.  The claim's concatenation law is stated for
*any* payloads `p1, p2`; for an oversize `p1` (here `10 MiB + 1` zero
bytes, `p2 = []`) the first unframing of `frame(p1) ‖ frame(p2)` fails
with `MessageTooLarge` instead of yielding `p1`. -/
theorem C9_counterexample :
    unframe_message (frame_message (List.replicate (MAX_MESSAGE_SIZE + 1) 0)
        ++ frame_message []) =
      .error (.MessageTooLarge (MAX_MESSAGE_SIZE + 1) MAX_MESSAGE_SIZE) := by
  have hbytes : u32ToBeBytes
      ((List.replicate (MAX_MESSAGE_SIZE + 1) (0 : Nat)).length % 2 ^ 32)
      = [0, 160, 0, 1] := by
    rw [List.length_replicate]
    decide
  have hval : u32FromBeBytes 0 160 0 1 = MAX_MESSAGE_SIZE + 1 := by decide
  rw [frame_message, hbytes]
  simp only [List.cons_append, List.nil_append]
  rw [unframe_oversize 0 160 0 1 _ (by decide), hval]

/-- C9, amended.  Framing round-trips for payloads within the 10 MiB cap
(the concatenation law needs the bound on both payloads, which the claim
stated only for the single-frame law): for `|p| ≤ 10 MiB`,
`unframe(frame(p)) = (p, "")`; and for `|p1|, |p2| ≤ 10 MiB`, unframing
`frame(p1) ‖ frame(p2)` yields `p1` with remainder `frame(p2)`, and
unframing that remainder yields `p2` with empty remainder. -/
theorem C9_framing_round_trip (p p1 p2 : List Nat) :
    (p.length ≤ MAX_MESSAGE_SIZE →
      unframe_message (frame_message p) = .ok (some (p, []))) ∧
    (p1.length ≤ MAX_MESSAGE_SIZE → p2.length ≤ MAX_MESSAGE_SIZE →
      unframe_message (frame_message p1 ++ frame_message p2) =
          .ok (some (p1, frame_message p2)) ∧
        unframe_message (frame_message p2) = .ok (some (p2, []))) := by
  exact ⟨fun h => unframe_frame p h,
    fun h1 h2 => ⟨unframe_frame_append p1 p2 h1, unframe_frame p2 h2⟩⟩

/-- C9, witness: the round-trip laws at `p = [1, 2, 3]`,
`p1 = [4, 5]`, `p2 = [6]`. -/
theorem C9_framing_round_trip_witness :
    unframe_message (frame_message [1, 2, 3]) = .ok (some ([1, 2, 3], [])) ∧
    unframe_message (frame_message [4, 5] ++ frame_message [6]) =
      .ok (some ([4, 5], frame_message [6])) ∧
    unframe_message (frame_message [6]) = .ok (some ([6], [])) := by
  have h := C9_framing_round_trip [1, 2, 3] [4, 5] [6]
  exact ⟨h.1 (by decide), (h.2 (by decide) (by decide)).1,
    (h.2 (by decide) (by decide)).2⟩

/-! ## Claim C10 -/

/-- C10.  `PtyChannel::state` is a total observer: for every outcome of
the internal state-lock read it returns a `ChannelState` — the stored
state on a successful read, and `Exited(None)` (rather than a panic) in
the degenerate case of a poisoned lock. -/
theorem C10_state_total :
    (∀ s : ChannelState, PtyChannel.state (.ok s) = s) ∧
    (∀ u : Unit, PtyChannel.state (.error u) = ChannelState.Exited none) := by
  constructor
  · intro s
    rfl
  · intro u
    rfl

/-! ## Claim C7 -/

/-- The rendered message of the duplicate-name error contains the text
`"already exists"`. -/
theorem alreadyExists_message_contains (name : String) :
    strContainsSub "already exists" (ManagerError.alreadyExists name).message := by
  refine ⟨("Channel '" ++ name ++ "' ").data, [], ?_⟩
  have hsplit : ("' already exists" : String).data =
      ("' " : String).data ++ ("already exists" : String).data := by decide
  show ("Channel '" ++ name ++ "' already exists").data = _
  simp only [String.data_append, hsplit, List.append_assoc, List.append_nil]
  simp

/-- C7.  `create_channel` on a name already present fails with an error
whose message contains `"already exists"`, leaving the manager state —
channel map, active pointer, subscriptions and emitted-event trace —
completely unchanged, and the listener's `CreateChannel` arm then answers
that client with an `Error` and broadcasts no second `Created` event; a
PTY/child spawn failure likewise surfaces the error with no channel
registered and no state change. -/
theorem C7_create_errors_no_state_change (m : ManagerState)
    (cfg : ChannelConfig) (spawn : Except String Unit) (st : ServerState)
    (cid : Nat) (name : String) (command wd : Option String) (e : String) :
    (cfg.name ∈ m.keys →
      m.create_channel cfg spawn = (m, .error (.alreadyExists cfg.name)) ∧
      strContainsSub "already exists"
        (ManagerError.alreadyExists cfg.name).message) ∧
    (cfg.name ∉ m.keys → spawn = .error e →
      m.create_channel cfg spawn = (m, .error (.spawnFailed e))) ∧
    (name ∈ st.channel_manager.keys →
      process_message (.CreateChannel name command wd) cid st spawn =
        { state := st,
          response := some (.Error ("Failed to create channel: "
            ++ (ManagerError.alreadyExists name).message)),
          broadcasts := [], replayed := [], triggers_shutdown := false }) := by
  refine ⟨fun hdup => ⟨?_, alreadyExists_message_contains cfg.name⟩,
    fun hnew hspawn => ?_, fun hdup => ?_⟩
  · simp [ManagerState.create_channel, hdup]
  · simp [ManagerState.create_channel, hnew, hspawn]
  · have hc : st.channel_manager.create_channel
        { name := name, command := command, working_dir := wd } spawn =
        (st.channel_manager, .error (.alreadyExists name)) := by
      simp [ManagerState.create_channel, hdup]
    simp [process_message, hc, respondOnly]

/-- C7, witness: a duplicate `CreateChannel{"x"}` against a manager that
already holds `"x"`, and a spawn failure for a fresh name, both refused
with the state unchanged. -/
theorem C7_create_errors_no_state_change_witness :
    (ManagerState.run [.createOp { name := "x" } (.ok ())]).create_channel
        { name := "x" } (.ok ()) =
      (ManagerState.run [.createOp { name := "x" } (.ok ())],
        .error (.alreadyExists "x")) ∧
    ManagerState.init.create_channel { name := "y" }
        (.error "openpty failed") =
      (ManagerState.init, .error (.spawnFailed "openpty failed")) := by
  refine ⟨?_, ?_⟩
  · exact (((C7_create_errors_no_state_change
      (ManagerState.run [.createOp { name := "x" } (.ok ())])
      { name := "x" } (.ok ())
      { clients := [], channel_manager := ManagerState.init,
        output_buffers := [] }
      0 "x" none none "openpty failed").1) (by decide)).1
  · exact ((C7_create_errors_no_state_change ManagerState.init
      { name := "y" } (.error "openpty failed")
      { clients := [], channel_manager := ManagerState.init,
        output_buffers := [] }
      0 "x" none none "openpty failed").2.1) (by decide) rfl

/-! ## Claim C4 -/

/-- Each manager operation appends at most one terminal event for `c`,
and only a kill of `c` or `c`'s waiter exit can append one. -/
theorem terminalCount_apply_le (c : String) (m : ManagerState)
    (op : ManagerOp) :
    terminalCount c (m.apply op).events ≤ terminalCount c m.events +
      (if op.isTerminalSourceFor c then 1 else 0) := by
  cases op with
  | createOp config spawn =>
      simp only [ManagerState.apply, ManagerState.create_channel,
        ManagerOp.isTerminalSourceFor]
      split
      · simp
      · split
        · simp
        · simp [terminalCount, List.countP_append, List.countP_cons,
            ManagerEvent.isTerminalFor]
  | killOp name =>
      simp only [ManagerState.apply, ManagerState.kill_channel,
        ManagerOp.isTerminalSourceFor]
      split
      · simp
      · simp only [terminalCount, List.countP_append]
        by_cases hc : name == c
        · simp [hc, List.countP_cons, ManagerEvent.isTerminalFor]
        · simp [hc, List.countP_cons, ManagerEvent.isTerminalFor]
  | switchOp name =>
      simp only [ManagerState.apply, ManagerState.switch_active]
      split <;> simp
  | inputOp data =>
      simp only [ManagerState.apply, ManagerState.send_input,
        ManagerState.send_input_to]
      rcases m.active_channel with _ | name
      · simp
      · simp only []
        rcases h : m.lookup name with _ | ch
        · simp [h]
        · simp only [h]
          split <;> simp
  | inputToOp name data =>
      simp only [ManagerState.apply, ManagerState.send_input_to]
      rcases h : m.lookup name with _ | ch
      · simp [h]
      · simp only [h]
        split <;> simp
  | subscribeOp names =>
      simp [ManagerState.apply, ManagerState.subscribe]
  | unsubscribeOp names =>
      simp [ManagerState.apply, ManagerState.unsubscribe]
  | waiterExitOp name code =>
      simp only [ManagerState.apply, ManagerState.waiter_exit,
        ManagerOp.isTerminalSourceFor, terminalCount, List.countP_append]
      by_cases hc : name == c
      · simp [hc, List.countP_cons, ManagerEvent.isTerminalFor]
      · simp [hc, List.countP_cons, ManagerEvent.isTerminalFor]
  | readerChunkOp name data =>
      simp [ManagerState.apply, ManagerState.reader_chunk, terminalCount,
        List.countP_append, List.countP_cons, ManagerEvent.isTerminalFor]

/-- Over any suffix of an execution, the number of terminal events for
`c` grows by at most the number of kill/waiter-exit operations aimed at
`c`. -/
theorem terminalCount_foldl_le (c : String) (ops : List ManagerOp) :
    ∀ m : ManagerState,
      terminalCount c (ops.foldl ManagerState.apply m).events ≤
        terminalCount c m.events +
          ops.countP (ManagerOp.isTerminalSourceFor c) := by
  induction ops with
  | nil => intro m; simp
  | cons op rest ih =>
      intro m
      calc terminalCount c ((op :: rest).foldl ManagerState.apply m).events
          ≤ terminalCount c (m.apply op).events +
              rest.countP (ManagerOp.isTerminalSourceFor c) := by
            simpa using ih (m.apply op)
        _ ≤ terminalCount c m.events +
              (if op.isTerminalSourceFor c then 1 else 0) +
              rest.countP (ManagerOp.isTerminalSourceFor c) := by
            have := terminalCount_apply_le c m op
            omega
        _ ≤ terminalCount c m.events +
              (op :: rest).countP (ManagerOp.isTerminalSourceFor c) := by
            rw [List.countP_cons]
            by_cases h : op.isTerminalSourceFor c
            · simp [h]
              omega
            · simp [h]

/-- C4, counterexample.  A single client-visible kill already yields two
terminal events on the manager's event stream: `kill_channel` emits
`StateChanged Killed`, and when the killed child is then reaped, the
channel's waiter emits `StateChanged (Exited …)` for the same channel
(the waiter writes `Exited` unconditionally, overwriting `Killed`).  The
ungated reader may afterwards still deliver buffered output, so an
`Output` event can follow the terminal events as well.  The concrete
execution create–kill–reap–read refutes both halves of the claim. -/
theorem C4_counterexample :
    (ManagerState.run [.createOp { name := "a" } (.ok ()), .killOp "a",
        .waiterExitOp "a" (some 0), .readerChunkOp "a" [104]]).events =
      [.StateChanged "a" .Running, .StateChanged "a" .Killed,
        .StateChanged "a" (.Exited (some 0)), .Output "a" [104]] ∧
    terminalCount "a"
      (ManagerState.run [.createOp { name := "a" } (.ok ()), .killOp "a",
        .waiterExitOp "a" (some 0), .readerChunkOp "a" [104]]).events = 2 := by
  constructor
  · rfl
  · rfl

/-- C4, amended.  The manager emits one terminal event per terminal
*occurrence* — each successful kill and each waiter exit — rather than at
most one per channel: in any execution in which channel `c` is the target
of at most one kill operation and at most that one waiter/kill source in
total, at most one terminal event for `c` is emitted (but a kill followed
by the killed child's reap, or repeated kills, emit several, and `Output`
events are not gated by the terminal transition). -/
theorem C4_terminal_events_bounded_by_sources (c : String)
    (ops : List ManagerOp)
    (h : ops.countP (ManagerOp.isTerminalSourceFor c) ≤ 1) :
    terminalCount c (ManagerState.run ops).events ≤ 1 := by
  have hle := terminalCount_foldl_le c ops ManagerState.init
  simp only [ManagerState.init, terminalCount, List.countP_nil] at hle
  calc terminalCount c (ManagerState.run ops).events
      ≤ 0 + ops.countP (ManagerOp.isTerminalSourceFor c) := hle
    _ ≤ 1 := by omega

/-- C4, witness: an execution that creates `"a"`, writes to it and kills
it exactly once has exactly at most one terminal event for `"a"`. -/
theorem C4_terminal_events_bounded_by_sources_witness :
    terminalCount "a"
      (ManagerState.run [.createOp { name := "a" } (.ok ()),
        .inputOp [108, 115], .readerChunkOp "a" [108],
        .killOp "a"]).events ≤ 1 :=
  C4_terminal_events_bounded_by_sources "a"
    [.createOp { name := "a" } (.ok ()), .inputOp [108, 115],
      .readerChunkOp "a" [108], .killOp "a"] (by decide)

/-! ## Claim C5 -/

/-- Mapping a first-component-preserving update over the channel map
preserves the key set. -/
theorem keys_map_fst (chs : List (String × Channel))
    (g : String × Channel → String × Channel)
    (hg : ∀ p, (g p).1 = p.1) :
    (chs.map g).map Prod.fst = chs.map Prod.fst := by
  rw [List.map_map]
  apply List.map_congr_left
  intro p _
  exact hg p

/-- The per-name channel-map rewrites (`kill_channel`, `waiter_exit`)
preserve the key set. -/
theorem keys_map_update (chs : List (String × Channel)) (name : String)
    (f : Channel → Channel) :
    (chs.map (fun p => if p.1 == name then (p.1, f p.2) else p)).map
        Prod.fst = chs.map Prod.fst := by
  apply keys_map_fst
  intro p
  split <;> rfl

/-- `send_input_to` never changes the manager state. -/
theorem send_input_to_state (m : ManagerState) (name : String)
    (data : List Nat) : (m.send_input_to name data).1 = m := by
  unfold ManagerState.send_input_to
  rcases m.lookup name with _ | ch
  · rfl
  · by_cases h : ch.state.is_alive <;> simp [h]

/-- `send_input` never changes the manager state. -/
theorem send_input_state (m : ManagerState) (data : List Nat) :
    (m.send_input data).1 = m := by
  unfold ManagerState.send_input
  rcases m.active_channel with _ | name
  · rfl
  · exact send_input_to_state m name data

/-- Every manager operation preserves the `active_channel`-is-a-key
invariant. -/
theorem ActiveWF_apply (m : ManagerState) (op : ManagerOp)
    (hwf : ActiveWF m) : ActiveWF (m.apply op) := by
  cases op with
  | createOp config spawn =>
      simp only [ManagerState.apply, ManagerState.create_channel]
      split
      · exact hwf
      · split
        · exact hwf
        · intro n hn
          simp only [ManagerState.keys, List.map_append] at hn ⊢
          by_cases hfirst : m.channels.isEmpty
          · simp [hfirst] at hn
            simp [hn]
          · simp only [hfirst, if_neg, Bool.false_eq_true, ite_false] at hn
            have := hwf n hn
            simp only [ManagerState.keys] at this
            exact List.mem_append_left _ this
  | killOp name =>
      simp only [ManagerState.apply, ManagerState.kill_channel]
      rcases m.lookup name with _ | ch
      · exact hwf
      · intro n hn
        simp only at hn
        simp only [ManagerState.keys, keys_map_update]
        by_cases hact : m.active_channel == some name
        · rw [if_pos hact] at hn
          exact List.mem_of_find?_eq_some hn
        · rw [if_neg hact] at hn
          exact hwf n hn
  | switchOp name =>
      simp only [ManagerState.apply, ManagerState.switch_active]
      by_cases hmem : m.keys.contains name
      · rw [if_pos hmem]
        intro n hn
        simp only [Option.some_inj] at hn
        subst hn
        simpa using hmem
      · rw [if_neg hmem]
        exact hwf
  | inputOp data =>
      simpa only [ManagerState.apply, send_input_state] using hwf
  | inputToOp name data =>
      simpa only [ManagerState.apply, send_input_to_state] using hwf
  | subscribeOp names =>
      intro n hn
      exact hwf n hn
  | unsubscribeOp names =>
      intro n hn
      exact hwf n hn
  | waiterExitOp name code =>
      intro n hn
      simp only [ManagerState.apply, ManagerState.waiter_exit] at hn ⊢
      have hkeys := keys_map_fst m.channels
        (fun p => if p.1 == name then
          (p.1, { p.2 with state := ChannelState.Exited code }) else p)
        (fun p => by dsimp only; split <;> rfl)
      simp only [ManagerState.keys] at hkeys ⊢
      rw [hkeys]
      exact hwf n hn
  | readerChunkOp name data =>
      intro n hn
      exact hwf n hn

/-- The invariant holds in every reachable manager state. -/
theorem ActiveWF_run (ops : List ManagerOp) :
    ActiveWF (ManagerState.run ops) := by
  suffices h : ∀ m, ActiveWF m → ActiveWF (ops.foldl ManagerState.apply m) by
    apply h
    intro n hn
    simp [ManagerState.init] at hn
  induction ops with
  | nil => exact fun m hm => hm
  | cons op rest ih =>
      intro m hm
      exact ih (m.apply op) (ActiveWF_apply m op hm)

/-- After a successful kill of the active channel, the active pointer is
`none` or points at some other key of the (unchanged) key set. -/
theorem kill_active_relocates (m : ManagerState) (name : String)
    (hact : m.active_channel = some name)
    (hok : (m.kill_channel name).2 = .ok ()) :
    (m.kill_channel name).1.active_channel = none ∨
      ∃ k, k ∈ m.keys ∧ k ≠ name ∧
        (m.kill_channel name).1.active_channel = some k := by
  rcases h : m.lookup name with _ | ch
  · rw [ManagerState.kill_channel.eq_def, h] at hok
    simp at hok
  · have hbeq : (m.active_channel == some name) = true := by
      rw [hact]
      exact beq_self_eq_true (some name)
    have hkill : (m.kill_channel name).1.active_channel =
        m.keys.find? (fun k => k != name) := by
      rw [ManagerState.kill_channel.eq_def, h]
      simp only [if_pos hbeq]
    rcases hfind : m.keys.find? (fun k => k != name) with _ | k
    · rw [hkill, hfind]
      exact Or.inl rfl
    · refine Or.inr ⟨k, List.mem_of_find?_eq_some hfind, ?_, by rw [hkill, hfind]⟩
      have := List.find?_some hfind
      simpa using this

/-- C5, counterexample.  With channels `a` (active) and `b` present,
after `KillChannel "a"` the daemon's `ListChannels` reply still lists
*both* channels — `kill_channel` never removes the killed channel from
the map, so `a` is reported with `running = false` rather than dropped —
contradicting the claim that `b` is then the only channel reported. -/
theorem C5_counterexample :
    (process_message .ListChannels 0
        { clients := [(0, { id := 0, subscriptions := [] })],
          channel_manager := ManagerState.run
            [.createOp { name := "a" } (.ok ()),
              .createOp { name := "b" } (.ok ()), .killOp "a"],
          output_buffers := [] } (.ok ())).response =
      some (.ChannelList
        [{ name := "a", running := false, is_active := false,
           is_subscribed := false },
         { name := "b", running := true, is_active := true,
           is_subscribed := false }]) := by
  rfl

/-- C5, amended.  The invariant half of the claim holds: in every
reachable manager state, `active_channel = Some n` implies `n` is a key
of the channel map, and after a successful kill of the active channel the
pointer moves to some *other key of the map* (which, channels never being
removed, may belong to an already-dead channel rather than a live one) or
becomes `None`.  The `ListChannels` half must be weakened: after
`KillChannel "a"` with channels `a` (active) and `b`, the reply lists
both `a` (with `running = false`, `is_active = false`) and `b`, and `b`
is the only channel reported with `is_active = true`. -/
theorem C5_active_pointer_and_list (ops : List ManagerOp) (n : String)
    (m : ManagerState) (name : String) :
    ((ManagerState.run ops).active_channel = some n →
      n ∈ (ManagerState.run ops).keys) ∧
    (m.active_channel = some name → (m.kill_channel name).2 = .ok () →
      (m.kill_channel name).1.active_channel = none ∨
        ∃ k, k ∈ m.keys ∧ k ≠ name ∧
          (m.kill_channel name).1.active_channel = some k) ∧
    (process_message .ListChannels 0
        { clients := [(0, { id := 0, subscriptions := [] })],
          channel_manager := ManagerState.run
            [.createOp { name := "a" } (.ok ()),
              .createOp { name := "b" } (.ok ()), .killOp "a"],
          output_buffers := [] } (.ok ())).response =
      some (.ChannelList
        [{ name := "a", running := false, is_active := false,
           is_subscribed := false },
         { name := "b", running := true, is_active := true,
           is_subscribed := false }]) := by
  refine ⟨fun h => ActiveWF_run ops n h,
    fun hact hok => kill_active_relocates m name hact hok, ?_⟩
  rfl

/-- C5, witness: in the concrete two-channel session, after the kill the
active pointer names a key of the map (`"b"`), and the relocation
disjunction holds for killing the active `"a"`. -/
theorem C5_active_pointer_and_list_witness :
    "b" ∈ (ManagerState.run opsCreateABKillA).keys ∧
    ((managerAB.kill_channel "a").1.active_channel = none ∨
      ∃ k, k ∈ managerAB.keys ∧ k ≠ "a" ∧
        (managerAB.kill_channel "a").1.active_channel = some k) := by
  have h := C5_active_pointer_and_list opsCreateABKillA "b" managerAB "a"
  exact ⟨h.1 rfl, h.2.1 rfl rfl⟩

/-! ## Claim C6 -/

/-- C6, counterexample.  In a session whose channel `"a"` was created and
then killed, `"a"` is no longer live, yet the daemon expands
`Subscribe{["*"]}` to `["a"]` — the `"*"` expansion uses
`ChannelManager::list_channels`, the keys of the channel map, from which
dead channels are never removed — and subscribes the client to the dead
channel, so the expansion is not "exactly the set of live channel names
at that instant" (which is empty here). -/
theorem C6_counterexample :
    serverDeadA.expand_subscribe ["*"] = ["a"] ∧
    spec_live_channels serverDeadA.channel_manager = [] ∧
    (process_message (.Subscribe ["*"]) 0 serverDeadA (.ok ())).response =
      some (.Event (.SubscriptionChanged ["a"])) := by
  exact ⟨rfl, rfl, rfl⟩

/-- C6, amended.  A `Subscribe` request containing `"*"` expands to
exactly the *known* channel names — all keys of the channel map,
including channels that have already exited or been killed (they are
never removed from the map) — before unioning into the client's
subscription set; every live channel is among them. -/
theorem C6_star_expands_to_known_channels (st : ServerState)
    (channels : List String) (hstar : "*" ∈ channels) :
    st.expand_subscribe channels = st.channel_manager.list_channels ∧
    ∀ c, c ∈ spec_live_channels st.channel_manager →
      c ∈ st.expand_subscribe channels := by
  have hc : channels.contains "*" = true := by
    simpa using hstar
  have hexp : st.expand_subscribe channels =
      st.channel_manager.list_channels := by
    simp only [ServerState.expand_subscribe, hc, if_true]
  refine ⟨hexp, fun c hlive => ?_⟩
  rw [hexp]
  have hsub :=
    (List.filter_sublist (p := fun p => p.2.state.is_alive)
      st.channel_manager.channels).map Prod.fst
  exact hsub.subset hlive

/-- C6, witness: in the dead-channel session, `["*"]` expands to the full
key set `["a"]`, and every live channel (vacuously, there are none) is
contained in it. -/
theorem C6_star_expands_to_known_channels_witness :
    serverDeadA.expand_subscribe ["*"] =
      serverDeadA.channel_manager.list_channels ∧
    ∀ c, c ∈ spec_live_channels serverDeadA.channel_manager →
      c ∈ serverDeadA.expand_subscribe ["*"] :=
  C6_star_expands_to_known_channels serverDeadA ["*"] (by decide)

/-! ## Claim C1 -/

/-- C1.  The dispatch in `src/server/listener.rs` never routes `Input` to
the channel manager: even in a session with a live active channel — where
`ChannelManager::send_input` would succeed, as the second conjunct shows —
the daemon replies with an `Error` ("Channel operations not yet
implemented", the source's Phase-2 stub) and changes nothing.  The third
conjunct shows the manager-level behaviour the claim describes (the
`NoActiveChannel` failure) is indeed what `send_input` does when no
channel is active — the bug is that the listener never calls it. -/
theorem C1_input_stubbed_not_routed :
    process_message (.Input [120]) 0 serverWithA (.ok ()) =
      { state := serverWithA,
        response := some (.Error "Channel operations not yet implemented"),
        broadcasts := [], replayed := [], triggers_shutdown := false } ∧
    (serverWithA.channel_manager.send_input [120]).2 = .ok () ∧
    (ManagerState.init.send_input [120]).2 =
      .error ManagerError.noActiveChannel := by
  exact ⟨rfl, rfl, rfl⟩

/-! ## Claim C2 -/

/-- C2.  The daemon replies `Ack{"Shutdown"}` to a `Shutdown` message but
does not trigger daemon shutdown: the dispatch arm is a stub (the source
leaves `TODO: Trigger server shutdown`), no signal reaches the accept
loop, so the listener keeps accepting and the socket file is not removed
— the shutdown path of `ServerListener::run` only runs when the external
shutdown channel fires. -/
theorem C2_shutdown_acked_but_not_triggered :
    process_message .Shutdown 0 serverWithA (.ok ()) =
      { state := serverWithA, response := some (.Ack "Shutdown"),
        broadcasts := [], replayed := [], triggers_shutdown := false } := by
  rfl

/-! ## Claim C3 -/

/-- C3, counterexample.  After answering `Hello{999}` with the
version-mismatch `Error`, the daemon keeps the connection open and keeps
serving the same client: the next message (`ListChannels`) is processed
and answered, so the client does not observe EOF after the `Error`. -/
theorem C3_counterexample :
    message_loop serverEmpty 0
        [(.Hello 999, .ok ()), (.ListChannels, .ok ())] =
      (serverEmpty,
        [.Error "Protocol version mismatch: expected 1, got 999",
         .ChannelList []]) := by
  rfl

/-- C3, amended.  For every `Hello{v}` with `v ≠ PROTOCOL_VERSION` the
daemon replies with an `Error` whose text contains "Protocol version",
but it does not close the connection: the message loop continues exactly
as it would on the remaining messages. -/
theorem C3_version_mismatch_error_no_close (v : Nat) (st : ServerState)
    (cid : Nat) (rest : List (ClientMessage × Except String Unit))
    (hv : v ≠ PROTOCOL_VERSION) :
    (process_message (.Hello v) cid st (.ok ())).response =
      some (.Error (version_mismatch_message v)) ∧
    strContainsSub "Protocol version" (version_mismatch_message v) ∧
    message_loop st cid ((.Hello v, .ok ()) :: rest) =
      ((message_loop st cid rest).1,
        .Error (version_mismatch_message v)
          :: (message_loop st cid rest).2) := by
  have hne : (v != PROTOCOL_VERSION) = true := by
    simpa using hv
  have hproc : process_message (.Hello v) cid st (.ok ()) =
      respondOnly st (some (.Error (version_mismatch_message v))) := by
    simp [process_message, hne]
  refine ⟨by rw [hproc]; rfl, ?_, ?_⟩
  · refine ⟨[], (" mismatch: expected " : String).data
      ++ (toString PROTOCOL_VERSION).data ++ (", got " : String).data
      ++ (toString v).data, ?_⟩
    have hsplit : ("Protocol version mismatch: expected " : String).data =
        ("Protocol version" : String).data ++
        (" mismatch: expected " : String).data := by
      decide
    simp [version_mismatch_message, String.data_append, hsplit,
      List.append_assoc]
  · rw [message_loop, hproc]
    rfl

/-- C3, witness: the amended behaviour at `Hello{999}` followed by
`ListChannels` in the one-client empty session. -/
theorem C3_version_mismatch_error_no_close_witness :
    (process_message (.Hello 999) 0 serverEmpty (.ok ())).response =
      some (.Error (version_mismatch_message 999)) ∧
    strContainsSub "Protocol version" (version_mismatch_message 999) ∧
    message_loop serverEmpty 0
        [(.Hello 999, .ok ()), (.ListChannels, .ok ())] =
      ((message_loop serverEmpty 0 [(.ListChannels, .ok ())]).1,
        .Error (version_mismatch_message 999)
          :: (message_loop serverEmpty 0 [(.ListChannels, .ok ())]).2) :=
  C3_version_mismatch_error_no_close 999 serverEmpty 0
    [(.ListChannels, .ok ())] (by decide)

end Nexus
